import Mathlib

/-!
Verification development for the ChatBot_Rust backend.

The repository's core is a session store (`src/services/session_manager.rs`)
and a pure dialogue engine (`src/services/chatbot.rs`).  Strings are
modelled as `List Char` (`Str` below); Rust's Unicode-aware character
classification functions (`to_lowercase`, `is_alphabetic`, `is_whitespace`,
`is_numeric`) are modelled on the character repertoire the program actually
manipulates: ASCII plus the precomposed Latin-1 / Latin-Extended-A letters
that appear in the keyword tables and localized strings.  `str::len` is
modelled as UTF-8 byte length, as in Rust.
-/

namespace ChatBotRust

abbrev Str := List Char

/-- Rust `char::to_lowercase` restricted to ASCII and the Latin-1 /
Latin-Extended-A uppercase letters (codepoints 0xC0-0xDE except 0xD7 map by
+0x20; in 0x100-0x17E the even/odd pairing of Latin Extended-A applies).
All characters in the engine's keyword tables fall in this repertoire. -/
def charToLower (c : Char) : Char :=
  let n := c.toNat
  if 0x41 ≤ n ∧ n ≤ 0x5A then Char.ofNat (n + 0x20)
  else if 0xC0 ≤ n ∧ n ≤ 0xDE ∧ n ≠ 0xD7 then Char.ofNat (n + 0x20)
  else if 0x100 ≤ n ∧ n ≤ 0x137 ∧ n % 2 = 0 then Char.ofNat (n + 1)
  else if 0x139 ≤ n ∧ n ≤ 0x148 ∧ n % 2 = 1 then Char.ofNat (n + 1)
  else if 0x14A ≤ n ∧ n ≤ 0x177 ∧ n % 2 = 0 then Char.ofNat (n + 1)
  else if 0x179 ≤ n ∧ n ≤ 0x17E ∧ n % 2 = 1 then Char.ofNat (n + 1)
  else c

/-- Rust `char::to_uppercase` on the same repertoire (inverse direction). -/
def charToUpper (c : Char) : Char :=
  let n := c.toNat
  if 0x61 ≤ n ∧ n ≤ 0x7A then Char.ofNat (n - 0x20)
  else if 0xE0 ≤ n ∧ n ≤ 0xFE ∧ n ≠ 0xF7 then Char.ofNat (n - 0x20)
  else if 0x101 ≤ n ∧ n ≤ 0x138 ∧ n % 2 = 1 then Char.ofNat (n - 1)
  else if 0x13A ≤ n ∧ n ≤ 0x149 ∧ n % 2 = 0 then Char.ofNat (n - 1)
  else if 0x14B ≤ n ∧ n ≤ 0x178 ∧ n % 2 = 1 then Char.ofNat (n - 1)
  else if 0x17A ≤ n ∧ n ≤ 0x17E ∧ n % 2 = 0 then Char.ofNat (n - 1)
  else c

/-- Rust `str::to_lowercase`, character-wise on the modelled repertoire. -/
def toLower (s : Str) : Str := s.map charToLower

/-- Rust `str::to_uppercase`, character-wise on the modelled repertoire. -/
def toUpper (s : Str) : Str := s.map charToUpper

/-- Rust `char::is_whitespace`: the Unicode White_Space code points. -/
def charIsWhitespace (c : Char) : Bool :=
  let n := c.toNat
  (0x9 ≤ n && n ≤ 0xD) || n == 0x20 || n == 0x85 || n == 0xA0 ||
  n == 0x1680 || (0x2000 ≤ n && n ≤ 0x200A) || n == 0x2028 || n == 0x2029 ||
  n == 0x202F || n == 0x205F || n == 0x3000

/-- Rust `char::is_alphabetic` restricted to the modelled Latin repertoire:
ASCII letters and the letters among 0xAA-0x17F (0xC0-0xFF except the two
operators 0xD7, 0xF7, and all of Latin Extended-A). -/
def charIsAlphabetic (c : Char) : Bool :=
  let n := c.toNat
  (0x41 ≤ n && n ≤ 0x5A) || (0x61 ≤ n && n ≤ 0x7A) ||
  (0xC0 ≤ n && n ≤ 0x17F && !(n == 0xD7) && !(n == 0xF7))

/-- Rust `char::is_numeric` restricted to ASCII digits (the only digits the
program's inputs in the repository use). -/
def charIsNumeric (c : Char) : Bool := 0x30 ≤ c.toNat && c.toNat ≤ 0x39

/-- Rust `char::is_alphanumeric`. -/
def charIsAlphanumeric (c : Char) : Bool := charIsAlphabetic c || charIsNumeric c

/-- Rust `str::trim`: strip whitespace from both ends. -/
def trim (s : Str) : Str :=
  ((s.dropWhile charIsWhitespace).reverse.dropWhile charIsWhitespace).reverse

/-- Lowercase an ASCII letter, other characters unchanged
(Rust `u8::to_ascii_lowercase`, lifted to chars). -/
def charAsciiLower (c : Char) : Char :=
  if 0x41 ≤ c.toNat ∧ c.toNat ≤ 0x5A then Char.ofNat (c.toNat + 0x20) else c

/-- Rust `str::eq_ignore_ascii_case`.  On UTF-8 text byte-wise ASCII-folded
equality coincides with character-wise ASCII-folded equality, which is what
is used here. -/
def eqIgnoreAsciiCase (a b : Str) : Bool :=
  a.map charAsciiLower == b.map charAsciiLower

/-- Whether `needle` is an initial segment of `hay`. -/
def strStartsWith : Str → Str → Bool
  | _, [] => true
  | [], _ :: _ => false
  | h :: hs, n :: ns => h == n && strStartsWith hs ns

/-- Rust `str::contains` with a string pattern: substring containment. -/
def containsSub : Str → Str → Bool
  | hay, needle =>
    strStartsWith hay needle ||
      match hay with
      | [] => false
      | _ :: t => containsSub t needle

/-- UTF-8 byte length of one character. -/
def charUtf8Len (c : Char) : Nat :=
  if c.toNat < 0x80 then 1
  else if c.toNat < 0x800 then 2
  else if c.toNat < 0x10000 then 3
  else 4

/-- Rust `str::len`: the UTF-8 byte length. -/
def utf8Len (s : Str) : Nat := (s.map charUtf8Len).sum

/-- Helper for `splitNonAlnum`: accumulate the current word (reversed). -/
def splitNonAlnumAux : Str → Str → List Str
  | [], acc => [acc.reverse]
  | c :: t, acc =>
    if charIsAlphanumeric c then splitNonAlnumAux t (c :: acc)
    else acc.reverse :: splitNonAlnumAux t []

/-- Rust `s.split(|c: char| !c.is_alphanumeric())`: split on every
non-alphanumeric character, keeping empty pieces as Rust's `split` does. -/
def splitNonAlnum (s : Str) : List Str := splitNonAlnumAux s []

/-- `Intent` from `src/services/chatbot.rs`. -/
inductive Intent where
  | Greeting
  | WebsiteRequest
  | Pricing
  | Contact
  | Help
  | Services
  | Unknown
deriving DecidableEq, Repr

/-- `GREETING_KEYWORDS` from `src/services/chatbot.rs`. -/
def GREETING_KEYWORDS : List Str :=
  ["hello".data, "hi".data, "hey".data, "bonjour".data, "cześć".data, "hola".data]

/-- `WEBSITE_KEYWORDS` from `src/services/chatbot.rs`. -/
def WEBSITE_KEYWORDS : List Str :=
  ["web site".data, "website".data, "e-commerce".data, "site web".data,
   "strona".data, "sitio web".data]

/-- `PRICING_KEYWORDS` from `src/services/chatbot.rs`. -/
def PRICING_KEYWORDS : List Str :=
  ["price".data, "cost".data, "quote".data, "prix".data, "cena".data, "precio".data]

/-- `CONTACT_KEYWORDS` from `src/services/chatbot.rs`. -/
def CONTACT_KEYWORDS : List Str :=
  ["email".data, "phone".data, "contact".data, "kontakt".data, "contacto".data]

/-- `HELP_KEYWORDS` from `src/services/chatbot.rs`. -/
def HELP_KEYWORDS : List Str :=
  ["help".data, "support".data, "assist".data, "aide".data, "pomoc".data, "ayuda".data]

/-- `SERVICES_KEYWORDS` from `src/services/chatbot.rs`. -/
def SERVICES_KEYWORDS : List Str :=
  ["service".data, "offer".data, "what do you do".data, "usługi".data, "servicios".data]

/-- `detect_intent` from `src/services/chatbot.rs`: case-insensitive substring
matching against the per-intent keyword lists, in fixed priority order. -/
def detect_intent (msg : Str) : Intent :=
  let msg_lower := toLower msg
  if GREETING_KEYWORDS.any (fun k => containsSub msg_lower k) then Intent.Greeting
  else if WEBSITE_KEYWORDS.any (fun k => containsSub msg_lower k) then Intent.WebsiteRequest
  else if PRICING_KEYWORDS.any (fun k => containsSub msg_lower k) then Intent.Pricing
  else if CONTACT_KEYWORDS.any (fun k => containsSub msg_lower k) then Intent.Contact
  else if HELP_KEYWORDS.any (fun k => containsSub msg_lower k) then Intent.Help
  else if SERVICES_KEYWORDS.any (fun k => containsSub msg_lower k) then Intent.Services
  else Intent.Unknown

/-- The `Debug` rendering of an `Intent`, as produced by Rust's derived
`format!` with the debug formatter (used as the metrics key). -/
def intentName : Intent → Str
  | Intent.Greeting => "Greeting".data
  | Intent.WebsiteRequest => "WebsiteRequest".data
  | Intent.Pricing => "Pricing".data
  | Intent.Contact => "Contact".data
  | Intent.Help => "Help".data
  | Intent.Services => "Services".data
  | Intent.Unknown => "Unknown".data

/-- `KNOWLEDGE_BASE` from `src/services/chatbot.rs`: the fixed topic
vocabulary for continuous keyword learning. -/
def KNOWLEDGE_BASE : List Str :=
  ["website".data, "ecommerce".data, "shop".data, "blog".data, "landing".data,
   "rust".data, "python".data, "javascript".data, "react".data, "vue".data, "node".data,
   "design".data, "ui".data, "ux".data, "logo".data,
   "seo".data, "marketing".data, "ads".data,
   "mobile".data, "app".data, "ios".data, "android".data,
   "api".data, "database".data, "sql".data, "cloud".data]

/-- `extract_keywords` from `src/services/chatbot.rs`: lowercase the text,
split it on non-alphanumeric characters, and keep the knowledge-base entries
that occur as whole words.  The source's push loop visits `KNOWLEDGE_BASE` in
order, which is exactly this filter. -/
def extract_keywords (text : Str) : List Str :=
  let lower := toLower text
  let words := splitNonAlnum lower
  KNOWLEDGE_BASE.filter (fun keyword => words.contains keyword)

/-- `infer_language` from `src/services/chatbot.rs`. -/
def infer_language (msg : Str) : Option Str :=
  let msg_lower := toLower msg
  if containsSub msg_lower "hola".data || containsSub msg_lower "ayuda".data ||
     containsSub msg_lower "contacto".data || containsSub msg_lower "precio".data ||
     containsSub msg_lower "servicios".data then some "es".data
  else if containsSub msg_lower "bonjour".data || containsSub msg_lower "aide".data ||
     containsSub msg_lower "site web".data then some "fr".data
  else if containsSub msg_lower "cześć".data || containsSub msg_lower "czesc".data ||
     containsSub msg_lower "pomoc".data || containsSub msg_lower "kontakt".data ||
     containsSub msg_lower "cena".data || containsSub msg_lower "usługi".data ||
     containsSub msg_lower "strona".data then some "pl".data
  else if containsSub msg_lower "hello".data || containsSub msg_lower "hi".data ||
     containsSub msg_lower "help".data || containsSub msg_lower "price".data ||
     containsSub msg_lower "website".data then some "en".data
  else none

/-- The Polish arms of `get_localized_msg`'s match in `src/services/chatbot.rs`. -/
def localizedPl (key : Str) : Str :=
  if key = "greeting".data then "Cześć! Witamy w naszej agencji. Jak mogę Ci pomóc?".data
  else if key = "website_start".data then "Chętnie pomożemy. Na początek, jak masz na imię?".data
  else if key = "pricing_start".data then "Nasze strony zaczynają się od 1000$. Czy chcesz rozpocząć wycenę?".data
  else if key = "pricing_info".data then "Nasze strony zaczynają się od 1000$.".data
  else if key = "contact_info".data then "Możesz się z nami skontaktować pod adresem contact@webagency.com lub +1-555-0199.".data
  else if key = "help_info".data then "Mogę pomóc z wyceną, kontaktem lub rozpoczęciem nowego projektu.".data
  else if key = "services_info".data then "Oferujemy tworzenie stron www, aplikacji i SEO.".data
  else if key = "unknown".data then "Nie zrozumiałem:".data
  else if key = "nice_meet".data then "Miło Cię poznać".data
  else if key = "ask_email".data then "Jaki jest Twój adres email?".data
  else if key = "invalid_name".data then "To nie wygląda na poprawne imię. Użyj tylko liter.".data
  else if key = "ask_budget".data then "Dzięki! Jaki jest szacowany budżet?".data
  else if key = "invalid_email".data then "Niepoprawny email. Spróbuj ponownie.".data
  else if key = "ask_details".data then "Zrozumiałem. Na koniec opisz krótko swój projekt.".data
  else if key = "invalid_budget".data then "Wpisz poprawną kwotę (np. 1000).".data
  else if key = "ok_no_problem".data then "Ok, nie ma problemu. Daj znać jeśli będziesz czegoś potrzebować.".data
  else if key = "help_interruption".data then "Aktualnie pytam o szczegóły. Wpisz 'reset' aby zacząć od nowa.".data
  else "Text missing".data

/-- The French arms of `get_localized_msg`'s match. -/
def localizedFr (key : Str) : Str :=
  if key = "greeting".data then "Bonjour! Bienvenue dans notre agence. Comment puis-je vous aider ?".data
  else if key = "website_start".data then "Nous serions ravis de vous aider. Pour commencer, quel est votre nom ?".data
  else if key = "pricing_start".data then "Nos sites commencent à 1000$. Voulez-vous lancer une demande ?".data
  else if key = "pricing_info".data then "Nos sites commencent à 1000$.".data
  else if key = "contact_info".data then "Vous pouvez nous joindre à contact@webagency.com ou +1-555-0199.".data
  else if key = "help_info".data then "Je peux vous aider avec les prix, le contact ou un nouveau projet.".data
  else if key = "services_info".data then "Nous proposons du développement Web, des applications et du SEO.".data
  else if key = "unknown".data then "Je n'ai pas bien compris :".data
  else if key = "nice_meet".data then "Enchanté".data
  else if key = "ask_email".data then "Quelle est votre adresse email ?".data
  else if key = "invalid_name".data then "Ce nom ne semble pas valide. Utilisez uniquement des lettres.".data
  else if key = "ask_budget".data then "Merci ! Quel est votre budget estimé ?".data
  else if key = "invalid_email".data then "Email invalide. Veuillez réessayer.".data
  else if key = "ask_details".data then "C'est noté. Enfin, décrivez brièvement votre projet.".data
  else if key = "invalid_budget".data then "Veuillez entrer un montant valide (ex: 1000).".data
  else if key = "ok_no_problem".data then "D'accord, pas de problème.".data
  else if key = "help_interruption".data then "Je demande actuellement vos détails. Tapez 'reset' pour recommencer.".data
  else "Text missing".data

/-- The Spanish arms of `get_localized_msg`'s match. -/
def localizedEs (key : Str) : Str :=
  if key = "greeting".data then "¡Hola! Bienvenido a nuestra agencia. ¿Cómo puedo ayudarte?".data
  else if key = "website_start".data then "Nos encantaría ayudar. Para empezar, ¿cuál es tu nombre?".data
  else if key = "pricing_start".data then "Nuestros sitios comienzan en $1000. ¿Quieres iniciar una consulta?".data
  else if key = "pricing_info".data then "Nuestros sitios comienzan en $1000.".data
  else if key = "contact_info".data then "Puedes contactarnos en contact@webagency.com o +1-555-0199.".data
  else if key = "help_info".data then "Puedo ayudarte con precios, contacto o un nuevo proyecto.".data
  else if key = "services_info".data then "Ofrecemos desarrollo web, aplicaciones y SEO.".data
  else if key = "unknown".data then "No entendí bien:".data
  else if key = "nice_meet".data then "Encantado de conocerte".data
  else if key = "ask_email".data then "¿Cuál es tu correo electrónico?".data
  else if key = "invalid_name".data then "Ese nombre no parece válido. Usa solo letras.".data
  else if key = "ask_budget".data then "¡Gracias! ¿Cuál es tu presupuesto estimado?".data
  else if key = "invalid_email".data then "Correo inválido. Inténtalo de nuevo.".data
  else if key = "ask_details".data then "Entendido. Finalmente, describe brevemente tu proyecto.".data
  else if key = "invalid_budget".data then "Ingresa un monto válido (ej. 1000).".data
  else if key = "ok_no_problem".data then "Bien, no hay problema.".data
  else if key = "help_interruption".data then "Estoy pidiendo tus detalles. Escribe 'reset' para reiniciar.".data
  else "Text missing".data

/-- The default (English) arms of `get_localized_msg`'s match. -/
def localizedEn (key : Str) : Str :=
  if key = "greeting".data then "Hello! Welcome to our agency. How can I help you today?".data
  else if key = "website_start".data then "We'd love to help with your website. To start, could you tell me your name?".data
  else if key = "pricing_start".data then "Our websites start at $1000. Would you like to start a project inquiry?".data
  else if key = "pricing_info".data then "Our websites start at $1000.".data
  else if key = "contact_info".data then "You can reach us at contact@webagency.com or call +1-555-0199.".data
  else if key = "help_info".data then "I can help you with pricing, contact info, or starting a new project.".data
  else if key = "services_info".data then "We offer Web Development, App Design, and SEO optimization.".data
  else if key = "unknown".data then "I didn't quite catch that:".data
  else if key = "nice_meet".data then "Nice to meet you".data
  else if key = "ask_email".data then "What is your email address?".data
  else if key = "invalid_name".data then "That doesn't look like a valid name. Please use letters only (no numbers).".data
  else if key = "ask_budget".data then "Thanks! What is your estimated budget for this project?".data
  else if key = "invalid_email".data then "That doesn't look like a valid email. Please try again.".data
  else if key = "ask_details".data then "Got it. Finally, please describe your project requirements briefly.".data
  else if key = "invalid_budget".data then "Please enter a valid budget amount (e.g. 1000).".data
  else if key = "ok_no_problem".data then "Okay, no problem. Let me know if you need anything else.".data
  else if key = "help_interruption".data then "I'm currently asking for your details. You can type 'reset' to start over.".data
  else "Text missing".data

/-- `get_localized_msg` from `src/services/chatbot.rs`.  The source is a flat
match on `(lang, key)`; because all four language blocks carry the same 17
keys, dispatching on the language first and falling back to the default
(English) block is the same function. -/
def get_localized_msg (key lang : Str) : Str :=
  if lang = "pl".data then localizedPl key
  else if lang = "fr".data then localizedFr key
  else if lang = "es".data then localizedEs key
  else localizedEn key

/-- `ConversationState`: the closed state set of the dialogue engine.  The
copy of this enum inside `src/services/session_manager.rs` is an older
five-variant revision; `src/services/chatbot.rs` and the repository's tests
use this seven-variant form (the spec's section 3 lists exactly these). -/
inductive ConversationState where
  | AskingLanguage
  | Idle
  | AskingName
  | AskingEmail
  | AskingBudget
  | AskingProjectDetails
  | AskingProjectConfirmation
deriving DecidableEq, Repr

/-- `SessionData` as used by `src/services/chatbot.rs` (name, email, budget,
detected_keywords, language).  The struct declaration in
`src/services/session_manager.rs` is the older revision without the
`language` field; the field and its "en" default are modelled from the
spec's section 3 data model, which the engine's code requires. -/
structure SessionData where
  language : Str
  name : Option Str
  email : Option Str
  budget : Option Str
  detected_keywords : List Str
deriving DecidableEq, Repr

/-- `SessionData::default()`. -/
def SessionData.default : SessionData :=
  { language := "en".data, name := none, email := none, budget := none,
    detected_keywords := [] }

/-- `MessageRole` from `src/services/session_manager.rs`. -/
inductive MessageRole where
  | User
  | Bot
deriving DecidableEq, Repr

/-- `Message` from `src/services/session_manager.rs`; the `Instant`
timestamp is modelled as a `Nat`. -/
structure Message where
  role : MessageRole
  content : Str
  timestamp : Nat
deriving DecidableEq, Repr

/-- `MetricsData` from `src/services/metrics_manager.rs`: the two counter
maps, modelled as total functions (a missing key reads as 0, matching the
HashMap's `entry(..).or_insert(0)` behaviour). -/
structure MetricsData where
  language_usage : Str → Nat
  intent_usage : Str → Nat

/-- A fresh `MetricsManager`'s data: both maps empty, i.e. all counts 0. -/
def MetricsData.fresh : MetricsData :=
  { language_usage := fun _ => 0, intent_usage := fun _ => 0 }

/-- `MetricsManager::increment_language`. -/
def incrementLanguage (m : MetricsData) (lang : Str) : MetricsData :=
  { m with language_usage := fun k =>
      if k = lang then m.language_usage k + 1 else m.language_usage k }

/-- `MetricsManager::increment_intent`. -/
def incrementIntent (m : MetricsData) (intent : Str) : MetricsData :=
  { m with intent_usage := fun k =>
      if k = intent then m.intent_usage k + 1 else m.intent_usage k }

/-- `is_valid_name` from `src/services/chatbot.rs`.  `name.len()` is Rust's
UTF-8 byte length. -/
def is_valid_name (name : Str) : Bool :=
  !name.isEmpty && utf8Len name > 1 &&
    name.all (fun c => charIsAlphabetic c || charIsWhitespace c ||
                       c == '-' || c == '\'')

/-- `get_reminder` from `src/services/chatbot.rs` (the `_` arm covers `Idle`). -/
def get_reminder (state : ConversationState) : Str :=
  match state with
  | ConversationState.AskingLanguage => "Please select your language.".data
  | ConversationState.AskingName => "Could you please tell me your name?".data
  | ConversationState.AskingEmail => "Please provide your email address.".data
  | ConversationState.AskingBudget => "What is your estimated budget?".data
  | ConversationState.AskingProjectDetails => "Please briefly describe your project.".data
  | ConversationState.AskingProjectConfirmation => "Would you like to start a project inquiry? (yes/no)".data
  | ConversationState.Idle => "".data

/-- The reply of the global reset command in `generate_reply`. -/
def RESET_MSG : Str :=
  "Conversation reset. Please select your language: English, Polish, French, Spanish.".data

/-- The per-state replies of the global status command in `generate_reply`. -/
def statusMsg (state : ConversationState) : Str :=
  match state with
  | ConversationState.AskingLanguage => "I am waiting for you to select a language.".data
  | ConversationState.Idle => "I am currently idle.".data
  | ConversationState.AskingName => "I am waiting for your name.".data
  | ConversationState.AskingEmail => "I am waiting for your email address.".data
  | ConversationState.AskingBudget => "I am waiting for your budget estimate.".data
  | ConversationState.AskingProjectDetails => "I am waiting for your project details.".data
  | ConversationState.AskingProjectConfirmation => "I am waiting for confirmation to start a project inquiry.".data

/-- The language re-prompt of the `AskingLanguage` state in `generate_reply`. -/
def LANG_PROMPT : Str :=
  "Please select your language: English, Polish, French, Spanish.\nChoisissez votre langue: English, Polish, French, Spanish.\nWybierz język: English, Polish, French, Spanish.\nElige tu idioma: English, Polish, French, Spanish.".data

/-- The result of one engine evaluation: `(reply, next state, next data)`
plus the metrics the turn side-effected (the Rust function mutates the
`MetricsManager` through a reference; here the updated counters are
returned). -/
structure ReplyOut where
  reply : Str
  state : ConversationState
  data : SessionData
  metrics : MetricsData

/-- Step 0 of `generate_reply`: language inference overwrites
`data.language` on a match. -/
def applyLanguage (data : SessionData) (user_msg : Str) : SessionData :=
  match infer_language user_msg with
  | some lang => { data with language := lang }
  | none => data

/-- The keyword-learning loop of `generate_reply`: push each topic not
already present (`Vec::contains`), in order. -/
def pushNewTopics (acc : List Str) (topics : List Str) : List Str :=
  topics.foldl (fun l t => if t ∈ l then l else l ++ [t]) acc

/-- Step 1 of `generate_reply`: continuous learning appends newly-seen
topics to `data.detected_keywords`. -/
def applyLearning (data : SessionData) (user_msg : Str) : SessionData :=
  { data with detected_keywords :=
      pushNewTopics data.detected_keywords (extract_keywords user_msg) }

/-- The data produced by steps 0 and 1 of `generate_reply` (the always-run
language inference and keyword learning), before any dialogue rule fires. -/
def learnData (data : SessionData) (user_msg : Str) : SessionData :=
  applyLearning (applyLanguage data user_msg) user_msg

/-- The affirmative check of the `AskingProjectConfirmation` arm: the
lowercased trimmed message contains one of the seven tokens as a substring. -/
def isAffirmative (user_msg : Str) : Bool :=
  let msg_lower := toLower (trim user_msg)
  containsSub msg_lower "yes".data || containsSub msg_lower "sure".data ||
  containsSub msg_lower "ok".data || containsSub msg_lower "yep".data ||
  containsSub msg_lower "tak".data || containsSub msg_lower "oui".data ||
  containsSub msg_lower "si".data

/-- The informational answer the interruption step returns for a qualifying
intent (`none` for every other intent). -/
def interruption_answer (intent : Intent) (lang : Str) : Option Str :=
  match intent with
  | Intent.Pricing => some (get_localized_msg "pricing_info".data lang)
  | Intent.Contact => some (get_localized_msg "contact_info".data lang)
  | Intent.Help => some (get_localized_msg "help_interruption".data lang)
  | _ => none

/-- The summary reply of the `AskingProjectDetails` arm (the Rust `format!`
written as concatenation). -/
def reportSummary (data : SessionData) : Str :=
  let topics_str :=
    if data.detected_keywords.isEmpty then "General Inquiry".data
    else toUpper (List.intercalate ", ".data data.detected_keywords)
  "✅ **REPORT GENERATED**\n\nI have compiled your project brief:\n- **Client**: ".data ++
    (data.name.getD "Unknown".data) ++
    "\n- **Contact**: ".data ++ (data.email.getD "N/A".data) ++
    "\n- **Budget**: ".data ++ (data.budget.getD "N/A".data) ++
    "\n- **Detected Topics**: ".data ++ topics_str ++
    "\n\nWe will review this context and contact you shortly!".data

/-- The final `match current_state` of `generate_reply` (the FSM core),
reached when no global command and no interruption decided the turn.
`data` is the value after steps 0 and 1; `responder` is the injected
external free-form responder standing for `call_mistral` (network I/O). -/
def stateStep (current_state : ConversationState) (user_msg : Str)
    (data : SessionData) (history : List Message) (metrics : MetricsData)
    (responder : List Message → Option Str) : ReplyOut :=
  match current_state with
  | ConversationState.AskingLanguage =>
    let msg_lower := toLower (trim user_msg)
    if containsSub msg_lower "english".data || msg_lower = "en".data then
      { reply := get_localized_msg "greeting".data "en".data,
        state := ConversationState.Idle,
        data := { data with language := "en".data }, metrics := metrics }
    else if containsSub msg_lower "polish".data || containsSub msg_lower "polski".data ||
        msg_lower = "pl".data then
      { reply := get_localized_msg "greeting".data "pl".data,
        state := ConversationState.Idle,
        data := { data with language := "pl".data }, metrics := metrics }
    else if containsSub msg_lower "french".data || containsSub msg_lower "francais".data ||
        msg_lower = "fr".data then
      { reply := get_localized_msg "greeting".data "fr".data,
        state := ConversationState.Idle,
        data := { data with language := "fr".data }, metrics := metrics }
    else if containsSub msg_lower "spanish".data || containsSub msg_lower "espanol".data ||
        msg_lower = "es".data then
      { reply := get_localized_msg "greeting".data "es".data,
        state := ConversationState.Idle,
        data := { data with language := "es".data }, metrics := metrics }
    else
      match infer_language user_msg with
      | some lang =>
        { reply := get_localized_msg "greeting".data lang,
          state := ConversationState.Idle,
          data := { data with language := lang }, metrics := metrics }
      | none =>
        { reply := LANG_PROMPT, state := ConversationState.AskingLanguage,
          data := data, metrics := metrics }
  | ConversationState.Idle =>
    let intent := detect_intent user_msg
    let metrics := incrementIntent metrics (intentName intent)
    match intent with
    | Intent.Greeting =>
      { reply := get_localized_msg "greeting".data data.language,
        state := ConversationState.Idle, data := data, metrics := metrics }
    | Intent.WebsiteRequest =>
      let data := { SessionData.default with language := data.language }
      { reply := get_localized_msg "website_start".data data.language,
        state := ConversationState.AskingName, data := data, metrics := metrics }
    | Intent.Pricing =>
      { reply := get_localized_msg "pricing_start".data data.language,
        state := ConversationState.AskingProjectConfirmation,
        data := data, metrics := metrics }
    | Intent.Contact =>
      { reply := get_localized_msg "contact_info".data data.language,
        state := ConversationState.Idle, data := data, metrics := metrics }
    | Intent.Help =>
      { reply := get_localized_msg "help_info".data data.language,
        state := ConversationState.Idle, data := data, metrics := metrics }
    | Intent.Services =>
      { reply := get_localized_msg "services_info".data data.language,
        state := ConversationState.Idle, data := data, metrics := metrics }
    | Intent.Unknown =>
      match responder history with
      | some ai_reply =>
        { reply := ai_reply, state := ConversationState.Idle,
          data := data, metrics := metrics }
      | none =>
        { reply := get_localized_msg "unknown".data data.language ++
            " '".data ++ user_msg ++ "'.".data,
          state := ConversationState.Idle, data := data, metrics := metrics }
  | ConversationState.AskingName =>
    let name := trim user_msg
    if is_valid_name name then
      let data := { data with name := some name }
      { reply := get_localized_msg "nice_meet".data data.language ++ ", ".data ++
          name ++ "! ".data ++ get_localized_msg "ask_email".data data.language,
        state := ConversationState.AskingEmail, data := data, metrics := metrics }
    else
      { reply := get_localized_msg "invalid_name".data data.language,
        state := ConversationState.AskingName, data := data, metrics := metrics }
  | ConversationState.AskingEmail =>
    if containsSub user_msg "@".data then
      let data := { data with email := some user_msg }
      { reply := get_localized_msg "ask_budget".data data.language,
        state := ConversationState.AskingBudget, data := data, metrics := metrics }
    else
      { reply := get_localized_msg "invalid_email".data data.language,
        state := ConversationState.AskingEmail, data := data, metrics := metrics }
  | ConversationState.AskingBudget =>
    if user_msg.any charIsNumeric then
      let data := { data with budget := some user_msg }
      { reply := get_localized_msg "ask_details".data data.language,
        state := ConversationState.AskingProjectDetails, data := data, metrics := metrics }
    else
      { reply := get_localized_msg "invalid_budget".data data.language,
        state := ConversationState.AskingBudget, data := data, metrics := metrics }
  | ConversationState.AskingProjectDetails =>
    { reply := reportSummary data, state := ConversationState.Idle,
      data := data, metrics := metrics }
  | ConversationState.AskingProjectConfirmation =>
    if isAffirmative user_msg then
      let data := { SessionData.default with language := data.language }
      { reply := get_localized_msg "website_start".data data.language,
        state := ConversationState.AskingName, data := data, metrics := metrics }
    else
      { reply := get_localized_msg "ok_no_problem".data data.language,
        state := ConversationState.Idle, data := data, metrics := metrics }

/-- The interruption step's metrics side effect: outside `Idle`, a
Pricing, Contact or Help intent increments its per-intent counter. -/
def interruptionMetrics (current_state : ConversationState) (user_msg : Str)
    (metrics : MetricsData) : MetricsData :=
  if current_state = ConversationState.Idle then metrics
  else
    match detect_intent user_msg with
    | Intent.Pricing | Intent.Contact | Intent.Help =>
      incrementIntent metrics (intentName (detect_intent user_msg))
    | _ => metrics

/-- The interruption step's optional reply: outside `Idle`, Pricing,
Contact (suppressed in `AskingEmail`) and Help produce a localized answer. -/
def interruptionOf (current_state : ConversationState) (user_msg : Str)
    (lang : Str) : Option Str :=
  if current_state = ConversationState.Idle then none
  else
    match detect_intent user_msg with
    | Intent.Pricing => some (get_localized_msg "pricing_info".data lang)
    | Intent.Contact =>
      if current_state = ConversationState.AskingEmail then none
      else some (get_localized_msg "contact_info".data lang)
    | Intent.Help => some (get_localized_msg "help_interruption".data lang)
    | _ => none

/-- `generate_reply` after steps 0 and 1: the global reset and status
commands, the interruption step, and the FSM core, in the source's
evaluation order.  `data` is the already-updated session data. -/
def generate_reply_core (current_state : ConversationState) (user_msg : Str)
    (data : SessionData) (history : List Message) (metrics : MetricsData)
    (responder : List Message → Option Str) : ReplyOut :=
  if eqIgnoreAsciiCase (trim user_msg) "reset".data ||
     eqIgnoreAsciiCase (trim user_msg) "cancel".data then
    { reply := RESET_MSG, state := ConversationState.AskingLanguage,
      data := SessionData.default, metrics := metrics }
  else if eqIgnoreAsciiCase (trim user_msg) "status".data then
    { reply := statusMsg current_state, state := current_state,
      data := data, metrics := metrics }
  else
    match interruptionOf current_state user_msg data.language with
    | some reply =>
      { reply := reply ++ " ".data ++ get_reminder current_state,
        state := current_state, data := data,
        metrics := interruptionMetrics current_state user_msg metrics }
    | none =>
      stateStep current_state user_msg data history
        (interruptionMetrics current_state user_msg metrics) responder

/-- `generate_reply` from `src/services/chatbot.rs`: the dialogue engine's
transition function.  Steps 0 (language inference plus the unconditional
per-language metrics increment) and 1 (keyword learning) run first; the
rest is `generate_reply_core`. -/
def generate_reply (current_state : ConversationState) (user_msg : Str)
    (data : SessionData) (history : List Message) (metrics : MetricsData)
    (responder : List Message → Option Str) : ReplyOut :=
  let data := applyLanguage data user_msg
  let metrics := incrementLanguage metrics data.language
  let data := applyLearning data user_msg
  generate_reply_core current_state user_msg data history metrics responder

/-- The entry state a reset transitions to (the localized variant of the
source starts conversations at the language-selection state). -/
def entry_state : ConversationState := ConversationState.AskingLanguage

/-- A trivial injected responder (the external AI is unavailable), used to
instantiate theorems at concrete inputs; no claim exercises the
Unknown-intent-in-Idle delegation path. -/
def noResponder : List Message → Option Str := fun _ => none

/-- `Session` from `src/services/session_manager.rs`; `Instant` modelled as
`Nat`. -/
structure Session where
  id : Str
  messages : List Message
  last_active : Nat
  state : ConversationState
  data : SessionData
deriving DecidableEq, Repr

/-- `Session::new`: empty history, `last_active` = now.  The initial state
is `Idle` as in `src/services/session_manager.rs` (the localized variant of
the repository starts at `AskingLanguage`; nothing below depends on the
choice). -/
def Session.new (id : Str) (now : Nat) : Session :=
  { id := id, messages := [], last_active := now,
    state := ConversationState.Idle, data := SessionData.default }

/-- `SessionManager` from `src/services/session_manager.rs`: the `HashMap`
behind the RwLock is modelled as an association list with unique keys
(lookup takes the first match); the `Duration` ttl as `Nat`. -/
structure SessionManager where
  ttl : Nat
  sessions : List (Str × Session)
deriving DecidableEq, Repr

/-- `HashMap::get` on the association list. -/
def lookupSession : List (Str × Session) → Str → Option Session
  | [], _ => none
  | p :: t, id => if p.1 = id then some p.2 else lookupSession t id

/-- `HashMap::get_mut` followed by a field write: replace the entry held
under `id` (keys are unique, so mapping over all entries is the map
update). -/
def updateSession (l : List (Str × Session)) (id : Str) (s : Session) :
    List (Str × Session) :=
  l.map (fun p => if p.1 = id then (id, s) else p)

/-- `SessionManager::create_session`.  `Uuid::new_v4` is an entropy source;
the fresh id it produces is taken as the parameter `id`. -/
def create_session (m : SessionManager) (id : Str) (now : Nat) :
    Str × SessionManager :=
  (id, { m with sessions := (id, Session.new id now) :: m.sessions })

/-- `SessionManager::ensure_session`: return the id unchanged if present,
otherwise insert a fresh session under exactly that id. -/
def ensure_session (m : SessionManager) (id : Str) (now : Nat) :
    Str × SessionManager :=
  if (lookupSession m.sessions id).isSome then (id, m)
  else (id, { m with sessions := (id, Session.new id now) :: m.sessions })

/-- `SessionManager::append_message`: get-or-create the session, push the
message, touch `last_active`, return the new history length. -/
def append_message (m : SessionManager) (id : Str) (role : MessageRole)
    (content : Str) (now : Nat) : Nat × SessionManager :=
  match lookupSession m.sessions id with
  | some s =>
    let s := { s with
      messages := s.messages ++ [{ role := role, content := content, timestamp := now }],
      last_active := now }
    (s.messages.length, { m with sessions := updateSession m.sessions id s })
  | none =>
    let s := { Session.new id now with
      messages := [{ role := role, content := content, timestamp := now }],
      last_active := now }
    (s.messages.length, { m with sessions := (id, s) :: m.sessions })

/-- `SessionManager::set_state`: update the state and touch `last_active`;
a silent no-op when the id is unknown. -/
def set_state (m : SessionManager) (id : Str) (new_state : ConversationState)
    (now : Nat) : SessionManager :=
  match lookupSession m.sessions id with
  | some s =>
    let s := { s with state := new_state, last_active := now }
    { m with sessions := updateSession m.sessions id s }
  | none => m

/-- `SessionManager::set_data`: update the data; a silent no-op when the id
is unknown.  The source does not touch `last_active` here. -/
def set_data (m : SessionManager) (id : Str) (data : SessionData) :
    SessionManager :=
  match lookupSession m.sessions id with
  | some s => { m with sessions := updateSession m.sessions id { s with data := data } }
  | none => m

/-- `SessionManager::remove_session`: delete the session, report whether
one existed. -/
def remove_session (m : SessionManager) (id : Str) : Bool × SessionManager :=
  ((lookupSession m.sessions id).isSome,
   { m with sessions := m.sessions.filter (fun p => !(p.1 = id : Bool)) })

/-- Whether a session is expired at `now`: `now.duration_since(last_active)
≥ ttl` (with `duration_since` saturating at zero, i.e. truncated `Nat`
subtraction). -/
def isExpired (ttl : Nat) (now : Nat) (s : Session) : Bool :=
  ttl ≤ now - s.last_active

/-- `SessionManager::purge_expired`: retain the sessions with
`now - last_active < ttl`, return how many were dropped. -/
def purge_expired (m : SessionManager) (now : Nat) : Nat × SessionManager :=
  let before := m.sessions.length
  let kept := m.sessions.filter (fun p => now - p.2.last_active < m.ttl)
  (before - kept.length, { m with sessions := kept })

/-- A filter and its complement split a list's length. -/
theorem filter_length_split {α : Type} (l : List α) (p : α → Bool) :
    (l.filter p).length + (l.filter (fun x => !(p x))).length = l.length := by
  induction l with
  | nil => rfl
  | cons a t ih =>
    by_cases h : p a = true
    · simp [List.filter_cons, h]
      omega
    · simp [List.filter_cons, h]
      omega

/-- Turn 1 of the C1 scenario: "I want a website" from Idle, default data. -/
def flowT1 : ReplyOut :=
  generate_reply ConversationState.Idle "I want a website".data
    SessionData.default [] MetricsData.fresh noResponder

/-- Turn 2 of the C1 scenario: "John". -/
def flowT2 : ReplyOut :=
  generate_reply flowT1.state "John".data flowT1.data [] flowT1.metrics noResponder

/-- Turn 3 of the C1 scenario: "john@test.com". -/
def flowT3 : ReplyOut :=
  generate_reply flowT2.state "john@test.com".data flowT2.data [] flowT2.metrics noResponder

/-- Turn 4 of the C1 scenario: "5000". -/
def flowT4 : ReplyOut :=
  generate_reply flowT3.state "5000".data flowT3.data [] flowT3.metrics noResponder

/-- Turn 5 of the C1 scenario: "I need a blog". -/
def flowT5 : ReplyOut :=
  generate_reply flowT4.state "I need a blog".data flowT4.data [] flowT4.metrics noResponder

/-- C1: starting in `Idle` with default data and empty history, the five-turn
scenario "I want a website" / "John" / "john@test.com" / "5000" /
"I need a blog" walks `AskingName`, `AskingEmail` (with `name = "John"`),
`AskingBudget` (with `email = "john@test.com"`), `AskingProjectDetails`, and
back to `Idle`, with each reply containing the required fragments, the
final reply containing "5000" and the report marker, and "blog" among the
detected keywords. -/
theorem end_to_end_flow :
    flowT1.state = ConversationState.AskingName ∧
    containsSub flowT1.reply "name".data = true ∧
    flowT2.state = ConversationState.AskingEmail ∧
    flowT2.data.name = some "John".data ∧
    containsSub flowT2.reply "John".data = true ∧
    containsSub flowT2.reply "email".data = true ∧
    flowT3.state = ConversationState.AskingBudget ∧
    flowT3.data.email = some "john@test.com".data ∧
    containsSub flowT3.reply "budget".data = true ∧
    flowT4.state = ConversationState.AskingProjectDetails ∧
    containsSub flowT4.reply "requirements".data = true ∧
    flowT5.state = ConversationState.Idle ∧
    containsSub flowT5.reply "5000".data = true ∧
    containsSub flowT5.reply "REPORT GENERATED".data = true ∧
    "blog".data ∈ flowT5.data.detected_keywords := by decide

/-- C2: whenever the trimmed message equals "reset" or "cancel" up to ASCII
case, `generate_reply` returns the reset confirmation, moves to the entry
state, and replaces the data with the defaults, from every state and for
every input data. -/
theorem reset_overrides (s : ConversationState) (d : SessionData)
    (hist : List Message) (m : MetricsData) (r : List Message → Option Str)
    (msg : Str)
    (hres : eqIgnoreAsciiCase (trim msg) "reset".data = true ∨
            eqIgnoreAsciiCase (trim msg) "cancel".data = true) :
    (generate_reply s msg d hist m r).reply = RESET_MSG ∧
    (generate_reply s msg d hist m r).state = entry_state ∧
    (generate_reply s msg d hist m r).data = SessionData.default := by
  unfold generate_reply generate_reply_core
  rcases hres with h | h <;> simp [h, entry_state]

/-- Witness for C2: the message " ReSeT " resets a mid-flow session. -/
theorem reset_overrides_witness :
    (generate_reply ConversationState.AskingBudget " ReSeT ".data
      { SessionData.default with name := some "John".data } [] MetricsData.fresh
      noResponder).reply = RESET_MSG ∧
    (generate_reply ConversationState.AskingBudget " ReSeT ".data
      { SessionData.default with name := some "John".data } [] MetricsData.fresh
      noResponder).state = entry_state ∧
    (generate_reply ConversationState.AskingBudget " ReSeT ".data
      { SessionData.default with name := some "John".data } [] MetricsData.fresh
      noResponder).data = SessionData.default :=
  reset_overrides _ _ _ _ _ _ (Or.inl (by decide))

/-- C5: `purge_expired` drops exactly the sessions with
`now - last_active ≥ ttl` (its count result equals the number of expired
sessions), keeps the others byte-for-byte (the kept list is the filter of
the original, every non-expired entry survives as-is), and when nothing is
expired it returns 0 and leaves the store unchanged. -/
theorem purge_expired_spec (m : SessionManager) (now : Nat) :
    (purge_expired m now).1 =
      (m.sessions.filter (fun p => isExpired m.ttl now p.2)).length ∧
    (purge_expired m now).2.sessions =
      m.sessions.filter (fun p => now - p.2.last_active < m.ttl) ∧
    (purge_expired m now).2.ttl = m.ttl ∧
    (∀ p ∈ m.sessions, now - p.2.last_active < m.ttl →
      p ∈ (purge_expired m now).2.sessions) ∧
    ((∀ p ∈ m.sessions, now - p.2.last_active < m.ttl) →
      (purge_expired m now).1 = 0 ∧ (purge_expired m now).2 = m) := by
  have hsplit := filter_length_split m.sessions
    (fun p => (now - p.2.last_active < m.ttl : Bool))
  have hexp : (m.sessions.filter (fun p => isExpired m.ttl now p.2)) =
      m.sessions.filter (fun p => !((now - p.2.last_active < m.ttl : Bool))) := by
    apply List.filter_congr
    intro p _
    simp [isExpired, ← decide_not, Nat.not_lt]
  refine ⟨?_, rfl, rfl, ?_, ?_⟩
  · simp only [purge_expired, hexp]
    omega
  · intro p hp hlt
    simp only [purge_expired]
    exact List.mem_filter.mpr ⟨hp, by simpa using hlt⟩
  · intro hall
    have hkeep : m.sessions.filter (fun p => (now - p.2.last_active < m.ttl : Bool)) =
        m.sessions :=
      List.filter_eq_self.mpr (fun p hp => by simpa using hall p hp)
    constructor
    · simp [purge_expired, hkeep]
    · simp [purge_expired, hkeep]

/-- Witness for C5: a store whose single session is fresh loses nothing. -/
theorem purge_expired_witness :
    (purge_expired ⟨10, [("a".data, Session.new "a".data 0)]⟩ 5).1 = 0 ∧
    (purge_expired ⟨10, [("a".data, Session.new "a".data 0)]⟩ 5).2 =
      ⟨10, [("a".data, Session.new "a".data 0)]⟩ :=
  (purge_expired_spec ⟨10, [("a".data, Session.new "a".data 0)]⟩ 5).2.2.2.2
    (by decide)

/-- C6: `ensure_session` returns an existing session's store untouched,
creates the session under exactly the supplied id on a miss, and is
idempotent: a second `ensure_session` with the same id changes nothing. -/
theorem ensure_session_spec (m : SessionManager) (id : Str) (now now2 : Nat) :
    ((lookupSession m.sessions id).isSome = true →
      ensure_session m id now = (id, m)) ∧
    (lookupSession m.sessions id = none →
      lookupSession (ensure_session m id now).2.sessions id =
        some (Session.new id now)) ∧
    ensure_session (ensure_session m id now).2 id now2 =
      (id, (ensure_session m id now).2) := by
  refine ⟨?_, ?_, ?_⟩
  · intro h
    simp [ensure_session, h]
  · intro h
    simp [ensure_session, h, lookupSession]
  · by_cases h : (lookupSession m.sessions id).isSome = true
    · simp [ensure_session, h]
    · have h' : (lookupSession m.sessions id).isSome = false := by
        simpa using h
      simp [ensure_session, h', lookupSession]

/-- Witness for C6: ensuring a fresh id twice yields the store the first
call produced, holding exactly that session. -/
theorem ensure_session_witness :
    lookupSession (ensure_session ⟨60, []⟩ "a".data 5).2.sessions "a".data =
      some (Session.new "a".data 5) ∧
    ensure_session (ensure_session ⟨60, []⟩ "a".data 5).2 "a".data 9 =
      ("a".data, (ensure_session ⟨60, []⟩ "a".data 5).2) :=
  ⟨(ensure_session_spec ⟨60, []⟩ "a".data 5 9).2.1 rfl,
   (ensure_session_spec ⟨60, []⟩ "a".data 5 9).2.2⟩

/-- Replacing the entry found under `id` makes `id` map to the new session. -/
theorem lookupSession_updateSession (l : List (Str × Session)) (id : Str)
    (s s' : Session) (h : lookupSession l id = some s) :
    lookupSession (updateSession l id s') id = some s' := by
  induction l with
  | nil => simp [lookupSession] at h
  | cons p t ih =>
    by_cases hp : p.1 = id
    · simp [updateSession, lookupSession, hp]
    · simp only [lookupSession, hp, if_neg, if_false] at h
      simp only [updateSession, List.map_cons, if_neg hp, lookupSession, hp, if_false]
      exact ih h

/-- A store with one session "a" created at time 0, used to exhibit C7's
failure on `set_data`. -/
def c7Store : SessionManager := ⟨100, [("a".data, Session.new "a".data 0)]⟩

/-- A data value differing from the default, to make `set_data` a real
mutation. -/
def c7Data : SessionData := { SessionData.default with name := some "X".data }

/-- Counterexample to C7 as stated: `set_data` mutates the session ("X" is
stored) but leaves `last_active` at its old value 0, while `set_state`
called at time 7 moves it to 7 — so not every mutating operation updates
`last_active`. -/
theorem set_data_keeps_last_active :
    set_data c7Store "a".data c7Data ≠ c7Store ∧
    Option.map Session.last_active
      (lookupSession (set_data c7Store "a".data c7Data).sessions "a".data) =
      some 0 ∧
    Option.map Session.last_active
      (lookupSession (set_state c7Store "a".data ConversationState.AskingName 7).sessions
        "a".data) = some 7 := by decide

/-- C7 amended: `create_session`, `ensure_session` on a miss,
`append_message` and `set_state` stamp the touched session's `last_active`
with the operation's time; `set_data` mutates the data but leaves
`last_active` unchanged.  Apart from removal and re-creation, none of these
operations can lower `last_active` below the stamped time. -/
theorem mutators_and_last_active (m : SessionManager) (id id2 : Str)
    (s : Session) (role : MessageRole) (content : Str)
    (st : ConversationState) (d : SessionData) (now : Nat)
    (h : lookupSession m.sessions id = some s) :
    lookupSession (append_message m id role content now).2.sessions id =
      some { s with
        messages := s.messages ++ [{ role := role, content := content, timestamp := now }],
        last_active := now } ∧
    lookupSession (set_state m id st now).sessions id =
      some { s with state := st, last_active := now } ∧
    lookupSession (set_data m id d).sessions id = some { s with data := d } ∧
    lookupSession (create_session m id2 now).2.sessions id2 =
      some (Session.new id2 now) ∧
    (lookupSession m.sessions id2 = none →
      lookupSession (ensure_session m id2 now).2.sessions id2 =
        some (Session.new id2 now)) := by
  refine ⟨?_, ?_, ?_, ?_, ?_⟩
  · simp only [append_message, h]
    exact lookupSession_updateSession _ _ _ _ h
  · simp only [set_state, h]
    exact lookupSession_updateSession _ _ _ _ h
  · simp only [set_data, h]
    exact lookupSession_updateSession _ _ _ _ h
  · simp [create_session, lookupSession]
  · intro h2
    simp [ensure_session, h2, lookupSession]

/-- Witness for C7 amended, on the concrete one-session store at time 7. -/
theorem mutators_and_last_active_witness :
    lookupSession (set_state c7Store "a".data ConversationState.AskingEmail 7).sessions
      "a".data =
      some { Session.new "a".data 0 with
        state := ConversationState.AskingEmail, last_active := 7 } ∧
    lookupSession (set_data c7Store "a".data c7Data).sessions "a".data =
      some { Session.new "a".data 0 with data := c7Data } :=
  ⟨(mutators_and_last_active c7Store "a".data "b".data (Session.new "a".data 0)
      MessageRole.User "hi".data ConversationState.AskingEmail c7Data 7
      (by decide)).2.1,
   (mutators_and_last_active c7Store "a".data "b".data (Session.new "a".data 0)
      MessageRole.User "hi".data ConversationState.AskingEmail c7Data 7
      (by decide)).2.2.1⟩

/-- C9: from fresh metrics, one `Idle` turn on the message "price" (intent
Pricing, inferred language "en") leaves `intent_usage["Pricing"] = 1` and
`language_usage["en"] = 1`: each counter was incremented exactly once. -/
theorem metrics_one_pricing_turn :
    (generate_reply ConversationState.Idle "price".data SessionData.default []
      MetricsData.fresh noResponder).metrics.intent_usage "Pricing".data = 1 ∧
    (generate_reply ConversationState.Idle "price".data SessionData.default []
      MetricsData.fresh noResponder).metrics.language_usage "en".data = 1 ∧
    (generate_reply ConversationState.Idle "price".data SessionData.default []
      MetricsData.fresh noResponder).state =
      ConversationState.AskingProjectConfirmation := by decide

/-- `generate_reply` is the core on the learned data, with the per-language
counter already incremented. -/
theorem generate_reply_as_core (s : ConversationState) (msg : Str)
    (d : SessionData) (hist : List Message) (m : MetricsData)
    (r : List Message → Option Str) :
    generate_reply s msg d hist m r =
      generate_reply_core s msg (learnData d msg) hist
        (incrementLanguage m (applyLanguage d msg).language) r := rfl

/-- When the message is none of the global commands and its intent is not
Pricing, Contact or Help, the core is exactly the FSM step: no command and
no interruption decides the turn. -/
theorem core_no_command_no_interruption (s : ConversationState) (msg : Str)
    (d : SessionData) (hist : List Message) (m : MetricsData)
    (r : List Message → Option Str)
    (hr1 : eqIgnoreAsciiCase (trim msg) "reset".data = false)
    (hr2 : eqIgnoreAsciiCase (trim msg) "cancel".data = false)
    (hr3 : eqIgnoreAsciiCase (trim msg) "status".data = false)
    (hi : detect_intent msg ≠ Intent.Pricing ∧ detect_intent msg ≠ Intent.Contact ∧
          detect_intent msg ≠ Intent.Help) :
    generate_reply_core s msg d hist m r = stateStep s msg d hist m r := by
  obtain ⟨h1, h2, h3⟩ := hi
  unfold generate_reply_core
  rcases hdi : detect_intent msg with _ | _ | _ | _ | _ | _ | _ <;>
    first
      | exact absurd hdi h1
      | exact absurd hdi h2
      | exact absurd hdi h3
      | simp [hr1, hr2, hr3, hdi, interruptionOf, interruptionMetrics]

/-- The learning steps do not touch `data.name`. -/
theorem learnData_name (d : SessionData) (msg : Str) :
    (learnData d msg).name = d.name := by
  unfold learnData applyLearning applyLanguage
  cases infer_language msg <;> rfl

/-- Counterexample to C3 as stated: in `AskingName` the Pricing-intent
message "precio" is answered as an interruption and the state is kept, but
the returned data is not the input data — the always-run language inference
has set `language` to "es". -/
theorem interruption_mutates_data :
    detect_intent "precio".data = Intent.Pricing ∧
    (generate_reply ConversationState.AskingName "precio".data SessionData.default
      [] MetricsData.fresh noResponder).state = ConversationState.AskingName ∧
    (generate_reply ConversationState.AskingName "precio".data SessionData.default
      [] MetricsData.fresh noResponder).data ≠ SessionData.default := by decide

/-- C3 amended: outside `Idle`, for a message that is not a global command
(reset/cancel/status — those are decided earlier) whose intent is Pricing,
Contact (except in `AskingEmail`, where Contact is suppressed) or Help,
`generate_reply` answers with the localized informational text plus the
state reminder, keeps the state, and returns the input data as updated by
the always-run language inference and keyword learning — nothing more. -/
theorem interruption_keeps_flow (s : ConversationState) (d : SessionData)
    (hist : List Message) (m : MetricsData) (r : List Message → Option Str)
    (msg : Str)
    (hs : s ≠ ConversationState.Idle)
    (hr1 : eqIgnoreAsciiCase (trim msg) "reset".data = false)
    (hr2 : eqIgnoreAsciiCase (trim msg) "cancel".data = false)
    (hr3 : eqIgnoreAsciiCase (trim msg) "status".data = false)
    (hi : detect_intent msg = Intent.Pricing ∨
          (detect_intent msg = Intent.Contact ∧ s ≠ ConversationState.AskingEmail) ∨
          detect_intent msg = Intent.Help) :
    (generate_reply s msg d hist m r).state = s ∧
    (generate_reply s msg d hist m r).data = learnData d msg ∧
    (generate_reply s msg d hist m r).reply =
      (interruption_answer (detect_intent msg) (learnData d msg).language).getD
        "".data ++ " ".data ++ get_reminder s := by
  rw [generate_reply_as_core]
  unfold generate_reply_core
  rcases hi with hP | ⟨hC, hCE⟩ | hH
  · simp [hr1, hr2, hr3, hP, hs, interruption_answer, interruptionOf]
  · simp [hr1, hr2, hr3, hC, hs, hCE, interruption_answer, interruptionOf]
  · simp [hr1, hr2, hr3, hH, hs, interruption_answer, interruptionOf]

/-- Witness for C3 amended: in `AskingName` the message "what is the
price?" keeps the state and the reply carries both the price figure and the
name reminder. -/
theorem interruption_keeps_flow_witness :
    (generate_reply ConversationState.AskingName "what is the price?".data
      SessionData.default [] MetricsData.fresh noResponder).state =
      ConversationState.AskingName ∧
    containsSub (generate_reply ConversationState.AskingName "what is the price?".data
      SessionData.default [] MetricsData.fresh noResponder).reply "$1000".data = true ∧
    containsSub (generate_reply ConversationState.AskingName "what is the price?".data
      SessionData.default [] MetricsData.fresh noResponder).reply "name".data = true := by
  have h := interruption_keeps_flow ConversationState.AskingName SessionData.default
    [] MetricsData.fresh noResponder "what is the price?".data
    (by decide) (by decide) (by decide) (by decide) (Or.inl (by decide))
  exact ⟨h.1, by decide, by decide⟩

/-- Counterexample to C4 as stated: in `AskingName` the message "reset" has
a trimmed input that `is_valid_name` accepts, yet `generate_reply` does not
store it and does not move to `AskingEmail` — the global reset command is
decided first. -/
theorem asking_name_reset_overrides :
    is_valid_name (trim "reset".data) = true ∧
    (generate_reply ConversationState.AskingName "reset".data SessionData.default
      [] MetricsData.fresh noResponder).state ≠ ConversationState.AskingEmail ∧
    (generate_reply ConversationState.AskingName "reset".data SessionData.default
      [] MetricsData.fresh noResponder).data.name = none := by decide

/-- C4 amended: in `AskingName`, for every message that is not a global
command (reset/cancel/status) and whose intent is not Pricing, Contact or
Help (those are decided by the earlier rules): a valid trimmed name is
stored in `data.name` and the engine moves to `AskingEmail` with the
name-interpolated prompt; otherwise the state stays `AskingName`,
`data.name` is unchanged, and the localized validation error is returned. -/
theorem asking_name_validation (d : SessionData) (hist : List Message)
    (m : MetricsData) (r : List Message → Option Str) (msg : Str)
    (hr1 : eqIgnoreAsciiCase (trim msg) "reset".data = false)
    (hr2 : eqIgnoreAsciiCase (trim msg) "cancel".data = false)
    (hr3 : eqIgnoreAsciiCase (trim msg) "status".data = false)
    (hi : detect_intent msg ≠ Intent.Pricing ∧ detect_intent msg ≠ Intent.Contact ∧
          detect_intent msg ≠ Intent.Help) :
    (is_valid_name (trim msg) = true →
      (generate_reply ConversationState.AskingName msg d hist m r).data.name =
        some (trim msg) ∧
      (generate_reply ConversationState.AskingName msg d hist m r).state =
        ConversationState.AskingEmail ∧
      (generate_reply ConversationState.AskingName msg d hist m r).reply =
        get_localized_msg "nice_meet".data (learnData d msg).language ++ ", ".data ++
          trim msg ++ "! ".data ++
          get_localized_msg "ask_email".data (learnData d msg).language) ∧
    (is_valid_name (trim msg) = false →
      (generate_reply ConversationState.AskingName msg d hist m r).state =
        ConversationState.AskingName ∧
      (generate_reply ConversationState.AskingName msg d hist m r).data.name =
        d.name ∧
      (generate_reply ConversationState.AskingName msg d hist m r).reply =
        get_localized_msg "invalid_name".data (learnData d msg).language) := by
  rw [generate_reply_as_core,
    core_no_command_no_interruption _ _ _ _ _ _ hr1 hr2 hr3 hi]
  constructor
  · intro hv
    simp [stateStep, hv]
  · intro hv
    simp [stateStep, hv, learnData_name]

/-- Witness for C4 amended: "User123" is rejected, the state stays
`AskingName` and no name is stored. -/
theorem asking_name_validation_witness :
    (generate_reply ConversationState.AskingName "User123".data SessionData.default
      [] MetricsData.fresh noResponder).state = ConversationState.AskingName ∧
    (generate_reply ConversationState.AskingName "User123".data SessionData.default
      [] MetricsData.fresh noResponder).data.name = none ∧
    (generate_reply ConversationState.AskingName "User123".data SessionData.default
      [] MetricsData.fresh noResponder).reply =
      get_localized_msg "invalid_name".data
        (learnData SessionData.default "User123".data).language := by
  have h := (asking_name_validation SessionData.default [] MetricsData.fresh
    noResponder "User123".data (by decide) (by decide) (by decide)
    ⟨by decide, by decide, by decide⟩).2 (by decide)
  exact ⟨h.1, h.2.1, h.2.2⟩

/-- Counterexample to C10 as stated: "sure, help me" contains the
affirmative token "sure", yet the affirmative branch is not taken — the
message's Help intent is answered as an interruption and the state stays
`AskingProjectConfirmation`. -/
theorem confirmation_interruption_overrides :
    isAffirmative "sure, help me".data = true ∧
    (generate_reply ConversationState.AskingProjectConfirmation
      "sure, help me".data SessionData.default [] MetricsData.fresh
      noResponder).state ≠ ConversationState.AskingName := by decide

/-- C10 amended: in `AskingProjectConfirmation`, for every message that is
not a global command and whose intent is not Pricing, Contact or Help, the
affirmative branch (reset data except language, move to `AskingName` with
the website-start prompt) is taken exactly when the lowercased trimmed
message contains one of "yes", "sure", "ok", "yep", "tak", "oui", "si" as a
substring — so some plainly negative messages such as "no sir" (which
contains "si") are treated as affirmative; all other such messages move to
`Idle` with an acknowledgement. -/
theorem confirmation_affirmative (d : SessionData) (hist : List Message)
    (m : MetricsData) (r : List Message → Option Str) (msg : Str)
    (hr1 : eqIgnoreAsciiCase (trim msg) "reset".data = false)
    (hr2 : eqIgnoreAsciiCase (trim msg) "cancel".data = false)
    (hr3 : eqIgnoreAsciiCase (trim msg) "status".data = false)
    (hi : detect_intent msg ≠ Intent.Pricing ∧ detect_intent msg ≠ Intent.Contact ∧
          detect_intent msg ≠ Intent.Help) :
    (isAffirmative msg = true →
      (generate_reply ConversationState.AskingProjectConfirmation msg d hist m r).state =
        ConversationState.AskingName ∧
      (generate_reply ConversationState.AskingProjectConfirmation msg d hist m r).data =
        { SessionData.default with language := (learnData d msg).language } ∧
      (generate_reply ConversationState.AskingProjectConfirmation msg d hist m r).reply =
        get_localized_msg "website_start".data (learnData d msg).language) ∧
    (isAffirmative msg = false →
      (generate_reply ConversationState.AskingProjectConfirmation msg d hist m r).state =
        ConversationState.Idle ∧
      (generate_reply ConversationState.AskingProjectConfirmation msg d hist m r).data =
        learnData d msg ∧
      (generate_reply ConversationState.AskingProjectConfirmation msg d hist m r).reply =
        get_localized_msg "ok_no_problem".data (learnData d msg).language) := by
  rw [generate_reply_as_core,
    core_no_command_no_interruption _ _ _ _ _ _ hr1 hr2 hr3 hi]
  constructor
  · intro hv
    simp [stateStep, hv]
  · intro hv
    simp [stateStep, hv]

/-- Witness for C10 amended: "no sir" (intent Unknown, contains "si") takes
the affirmative branch into `AskingName`. -/
theorem confirmation_affirmative_witness :
    (generate_reply ConversationState.AskingProjectConfirmation "no sir".data
      SessionData.default [] MetricsData.fresh noResponder).state =
      ConversationState.AskingName ∧
    (generate_reply ConversationState.AskingProjectConfirmation "no sir".data
      SessionData.default [] MetricsData.fresh noResponder).reply =
      get_localized_msg "website_start".data
        (learnData SessionData.default "no sir".data).language := by
  have h := (confirmation_affirmative SessionData.default [] MetricsData.fresh
    noResponder "no sir".data (by decide) (by decide) (by decide)
    ⟨by decide, by decide, by decide⟩).1 (by decide)
  exact ⟨h.1, h.2.2⟩

/-- On a duplicate-free topic list, the push loop appends exactly the
not-yet-present topics, in order. -/
theorem pushNewTopics_eq_append_filter (ks : List Str) (acc : List Str)
    (hn : ks.Nodup) :
    pushNewTopics acc ks = acc ++ ks.filter (fun k => !decide (k ∈ acc)) := by
  induction ks generalizing acc with
  | nil => simp [pushNewTopics]
  | cons k t ih =>
    rw [List.nodup_cons] at hn
    obtain ⟨hk, ht⟩ := hn
    by_cases h : k ∈ acc
    · have e1 : pushNewTopics acc (k :: t) = pushNewTopics acc t := by
        simp [pushNewTopics, List.foldl_cons, h]
      rw [e1, ih acc ht]
      simp [List.filter_cons, h]
    · have e1 : pushNewTopics acc (k :: t) = pushNewTopics (acc ++ [k]) t := by
        simp [pushNewTopics, List.foldl_cons, h]
      rw [e1, ih (acc ++ [k]) ht]
      have hfilter : t.filter (fun x => !decide (x ∈ acc ++ [k])) =
          t.filter (fun x => !decide (x ∈ acc)) := by
        apply List.filter_congr
        intro x hx
        have hxk : x ≠ k := fun e => hk (e ▸ hx)
        simp [List.mem_append, hxk]
      rw [hfilter]
      simp [List.filter_cons, h, List.append_assoc]

/-- Case helper: `detected_keywords` of an `if` equals `l` when it does in
both branches. -/
theorem eq_dk_ite {c : Prop} [Decidable c] {a b : ReplyOut} {l : List Str}
    (ha : a.data.detected_keywords = l) (hb : b.data.detected_keywords = l) :
    (if c then a else b).data.detected_keywords = l := by
  by_cases h : c
  · rw [if_pos h]
    exact ha
  · rw [if_neg h]
    exact hb

/-- Outside its two data-resetting arms (a WebsiteRequest handled in `Idle`
and an affirmative answer in `AskingProjectConfirmation`), the FSM step
returns exactly the keyword list it was given. -/
theorem stateStep_keywords_keep (s : ConversationState) (msg : Str)
    (d : SessionData) (hist : List Message) (m : MetricsData)
    (r : List Message → Option Str)
    (hWR : ¬(s = ConversationState.Idle ∧
             detect_intent msg = Intent.WebsiteRequest))
    (hAf : ¬(s = ConversationState.AskingProjectConfirmation ∧
             isAffirmative msg = true)) :
    (stateStep s msg d hist m r).data.detected_keywords =
      d.detected_keywords := by
  cases s with
  | AskingLanguage =>
    unfold stateStep
    apply eq_dk_ite rfl
    apply eq_dk_ite rfl
    apply eq_dk_ite rfl
    apply eq_dk_ite rfl
    rcases hinf : infer_language msg with _ | lang
    · rfl
    · rfl
  | Idle =>
    unfold stateStep
    rcases hdi : detect_intent msg with _ | _ | _ | _ | _ | _ | _
    · rfl
    · exact absurd ⟨rfl, hdi⟩ hWR
    · rfl
    · rfl
    · rfl
    · rfl
    · rcases hre : r hist with _ | ai
      · rfl
      · rfl
  | AskingName => exact eq_dk_ite rfl rfl
  | AskingEmail => exact eq_dk_ite rfl rfl
  | AskingBudget => exact eq_dk_ite rfl rfl
  | AskingProjectDetails => rfl
  | AskingProjectConfirmation =>
    have haf : isAffirmative msg = false := by
      cases haf : isAffirmative msg
      · rfl
      · exact absurd ⟨rfl, haf⟩ hAf
    simp [stateStep, haf]

/-- Outside the data-resetting turns, the core returns exactly the keyword
list it was given: the status and interruption branches keep the data and
the FSM step keeps the list by `stateStep_keywords_keep`. -/
theorem core_keywords_keep (s : ConversationState) (msg : Str)
    (d : SessionData) (hist : List Message) (m : MetricsData)
    (r : List Message → Option Str)
    (hr1 : eqIgnoreAsciiCase (trim msg) "reset".data = false)
    (hr2 : eqIgnoreAsciiCase (trim msg) "cancel".data = false)
    (hWR : ¬(s = ConversationState.Idle ∧
             detect_intent msg = Intent.WebsiteRequest))
    (hAf : ¬(s = ConversationState.AskingProjectConfirmation ∧
             detect_intent msg ≠ Intent.Pricing ∧
             detect_intent msg ≠ Intent.Contact ∧
             detect_intent msg ≠ Intent.Help ∧ isAffirmative msg = true)) :
    (generate_reply_core s msg d hist m r).data.detected_keywords =
      d.detected_keywords := by
  unfold generate_reply_core
  rw [if_neg (by simp [hr1, hr2])]
  by_cases hst : eqIgnoreAsciiCase (trim msg) "status".data = true
  · rw [if_pos hst]
  · rw [if_neg hst]
    rcases hio : interruptionOf s msg d.language with _ | reply
    · refine stateStep_keywords_keep _ _ _ _ _ _ hWR ?_
      rintro ⟨hconf, haff⟩
      subst hconf
      have hP : detect_intent msg ≠ Intent.Pricing := by
        intro h
        simp [interruptionOf, h] at hio
      have hC : detect_intent msg ≠ Intent.Contact := by
        intro h
        simp [interruptionOf, h] at hio
      have hH : detect_intent msg ≠ Intent.Help := by
        intro h
        simp [interruptionOf, h] at hio
      exact hAf ⟨rfl, hP, hC, hH, haff⟩
    · rfl

/-- The three data-resetting turns of the engine, stated on its inputs: a
global reset/cancel command; a WebsiteRequest classified while `Idle`
(reached only when the message is not the status command); and an
affirmative answer in `AskingProjectConfirmation` whose intent is not one
of the three interrupting intents (which would be answered first).  These
are exactly the turns on which the engine replaces the session data. -/
def resetsData (s : ConversationState) (msg : Str) : Prop :=
  eqIgnoreAsciiCase (trim msg) "reset".data = true ∨
  eqIgnoreAsciiCase (trim msg) "cancel".data = true ∨
  (eqIgnoreAsciiCase (trim msg) "status".data = false ∧
    ((s = ConversationState.Idle ∧
      detect_intent msg = Intent.WebsiteRequest) ∨
     (s = ConversationState.AskingProjectConfirmation ∧
      detect_intent msg ≠ Intent.Pricing ∧
      detect_intent msg ≠ Intent.Contact ∧
      detect_intent msg ≠ Intent.Help ∧ isAffirmative msg = true)))

instance resetsDataDecidable (s : ConversationState) (msg : Str) :
    Decidable (resetsData s msg) := by
  unfold resetsData
  infer_instance

/-- Counterexample to C8 as stated: the reset command clears a previously
learned keyword — "rust" is in the input data's `detected_keywords` and
absent from the returned data's. -/
theorem detected_keywords_cleared_on_reset :
    "rust".data ∈
      ({ SessionData.default with detected_keywords := ["rust".data] } :
        SessionData).detected_keywords ∧
    (generate_reply ConversationState.Idle "reset".data
      { SessionData.default with detected_keywords := ["rust".data] } []
      MetricsData.fresh noResponder).data.detected_keywords = [] := by decide

/-- C8 amended: on every turn that is not one of the three data-resetting
branches (global reset/cancel, a WebsiteRequest from `Idle`, an affirmative
project confirmation — `resetsData`), the returned `detected_keywords` is
exactly the input list with the message's newly-seen topics appended at the
end, deduplicated, in the vocabulary's order, so existing entries never
shrink or reorder; on the resetting turns the list is cleared together with
the rest of the data. -/
theorem detected_keywords_monotone (s : ConversationState) (msg : Str)
    (d : SessionData) (hist : List Message) (m : MetricsData)
    (r : List Message → Option Str) :
    (¬ resetsData s msg →
      (generate_reply s msg d hist m r).data.detected_keywords =
        d.detected_keywords ++
          (extract_keywords msg).filter
            (fun k => !decide (k ∈ d.detected_keywords))) ∧
    (resetsData s msg →
      (generate_reply s msg d hist m r).data.detected_keywords = []) := by
  have hdk : (learnData d msg).detected_keywords =
      d.detected_keywords ++
        (extract_keywords msg).filter
          (fun k => !decide (k ∈ d.detected_keywords)) := by
    have hkb : KNOWLEDGE_BASE.Nodup := by decide
    have hnd : (extract_keywords msg).Nodup := List.Nodup.filter _ hkb
    have hlang : (applyLanguage d msg).detected_keywords =
        d.detected_keywords := by
      unfold applyLanguage
      cases infer_language msg <;> rfl
    unfold learnData applyLearning
    simp only [hlang]
    exact pushNewTopics_eq_append_filter _ _ hnd
  rw [generate_reply_as_core]
  constructor
  · intro hn
    have hr1 : eqIgnoreAsciiCase (trim msg) "reset".data = false := by
      cases h : eqIgnoreAsciiCase (trim msg) "reset".data
      · rfl
      · exact absurd (Or.inl h) hn
    have hr2 : eqIgnoreAsciiCase (trim msg) "cancel".data = false := by
      cases h : eqIgnoreAsciiCase (trim msg) "cancel".data
      · rfl
      · exact absurd (Or.inr (Or.inl h)) hn
    by_cases hst : eqIgnoreAsciiCase (trim msg) "status".data = true
    · unfold generate_reply_core
      rw [if_neg (by simp [hr1, hr2]), if_pos hst]
      exact hdk
    · have hstf : eqIgnoreAsciiCase (trim msg) "status".data = false := by
        simpa using hst
      have hWR : ¬(s = ConversationState.Idle ∧
          detect_intent msg = Intent.WebsiteRequest) := fun hc =>
        hn (Or.inr (Or.inr ⟨hstf, Or.inl hc⟩))
      have hAf : ¬(s = ConversationState.AskingProjectConfirmation ∧
          detect_intent msg ≠ Intent.Pricing ∧
          detect_intent msg ≠ Intent.Contact ∧
          detect_intent msg ≠ Intent.Help ∧ isAffirmative msg = true) :=
        fun hc => hn (Or.inr (Or.inr ⟨hstf, Or.inr hc⟩))
      exact (core_keywords_keep s msg (learnData d msg) hist _ r hr1 hr2
        hWR hAf).trans hdk
  · intro hy
    rcases hy with h | h | ⟨hst, hbr⟩
    · simp [generate_reply_core, h, SessionData.default]
    · simp [generate_reply_core, h, SessionData.default]
    · by_cases hrr : (eqIgnoreAsciiCase (trim msg) "reset".data ||
          eqIgnoreAsciiCase (trim msg) "cancel".data) = true
      · simp [generate_reply_core, hrr, SessionData.default]
      · rcases hbr with ⟨hsI, hwr⟩ | ⟨hsC, hP, hC, hH, haff⟩
        · subst hsI
          unfold generate_reply_core
          rw [if_neg hrr, if_neg (by simp [hst])]
          have hio : interruptionOf ConversationState.Idle msg
              (learnData d msg).language = none := by
            simp [interruptionOf]
          rw [hio]
          simp [stateStep, hwr, SessionData.default]
        · subst hsC
          unfold generate_reply_core
          rw [if_neg hrr, if_neg (by simp [hst])]
          have hio : interruptionOf ConversationState.AskingProjectConfirmation
              msg (learnData d msg).language = none := by
            rcases hdi : detect_intent msg with _ | _ | _ | _ | _ | _ | _
            · simp [interruptionOf, hdi]
            · simp [interruptionOf, hdi]
            · exact absurd hdi hP
            · exact absurd hdi hC
            · exact absurd hdi hH
            · simp [interruptionOf, hdi]
            · simp [interruptionOf, hdi]
          rw [hio]
          simp [stateStep, haff, SessionData.default]

/-- Witness for C8 amended: a non-resetting turn ("I need a blog" while
`AskingBudget`, starting from ["rust"]) appends exactly ["blog"], and the
resetting turn "reset" clears the list. -/
theorem detected_keywords_monotone_witness :
    (generate_reply ConversationState.AskingBudget "I need a blog".data
      { SessionData.default with detected_keywords := ["rust".data] } []
      MetricsData.fresh noResponder).data.detected_keywords =
      ["rust".data, "blog".data] ∧
    (generate_reply ConversationState.Idle "reset".data
      { SessionData.default with detected_keywords := ["rust".data] } []
      MetricsData.fresh noResponder).data.detected_keywords = [] := by
  have h1 := (detected_keywords_monotone ConversationState.AskingBudget
    "I need a blog".data
    { SessionData.default with detected_keywords := ["rust".data] } []
    MetricsData.fresh noResponder).1 (by decide)
  have h2 := (detected_keywords_monotone ConversationState.Idle "reset".data
    { SessionData.default with detected_keywords := ["rust".data] } []
    MetricsData.fresh noResponder).2 (by decide)
  exact ⟨h1.trans (by decide), h2⟩

end ChatBotRust
